import Mathlib

/-!
Shallow embedding of the emergency-medicare-planner MCP server
(src/index.ts) and proofs about it.

Modelling conventions:
* JavaScript runtime values reaching the untyped validator are modelled by
  the inductive `JSValue`.  Numbers are modelled as `Int`: the only numeric
  operations the source performs are truthiness (`!x`, false exactly at 0),
  comparison (`>`) and storage, all of which `Int` captures for the integer
  inputs the claims are about.
* `Record<string, ThoughtData[]>` (the `branches` object) is modelled as an
  insertion-ordered association list; `Object.keys` is the list of first
  components.  (JavaScript's key ordering coincides with insertion order for
  non-index string keys such as branch labels.)
* The chalk/console rendering of a thought (`formatThought`, line 66-92 of
  src/index.ts) is an observability side channel and is not modelled.
* The random transport id (`Math.random`, line 437) is passed in as an
  explicit parameter of the dispatcher.
* The text of zod validation-error messages is abstracted; no theorem
  depends on it.
-/

namespace EMP

/-- A JavaScript value as seen by the untyped validator in
`SequentialThinkingServer.validateThoughtData` (src/index.ts lines 37-64). -/
inductive JSValue where
  | undef
  | null
  | bool (b : Bool)
  | num (n : Int)
  | str (s : String)
  deriving DecidableEq, Repr

/-- JavaScript truthiness: `undefined`, `null`, `false`, `0` and `""` are
falsy, everything else is truthy. -/
def JSValue.truthy : JSValue → Bool
  | .undef => false
  | .null => false
  | .bool b => b
  | .num n => n != 0
  | .str s => s != ""

/-- `typeof x === "string"`. -/
def JSValue.isStr : JSValue → Bool
  | .str _ => true
  | _ => false

/-- `typeof x === "number"`. -/
def JSValue.isNum : JSValue → Bool
  | .num _ => true
  | _ => false

/-- `typeof x === "boolean"`. -/
def JSValue.isBool : JSValue → Bool
  | .bool _ => true
  | _ => false

def JSValue.getStr : JSValue → String
  | .str s => s
  | _ => ""

def JSValue.getNum : JSValue → Int
  | .num n => n
  | _ => 0

def JSValue.getBool : JSValue → Bool
  | .bool b => b
  | _ => false

/-- Coercion of a value used as a JavaScript object key
(`this.branches[validatedInput.branchId]`). -/
def JSValue.keyStr : JSValue → String
  | .undef => "undefined"
  | .null => "null"
  | .bool b => if b then "true" else "false"
  | .num n => toString n
  | .str s => s

/-- The raw argument object handed to `processThought` (`input: unknown`),
restricted to the nine keys the code ever reads.  A key absent from the
request is `JSValue.undef`. -/
structure ThoughtInput where
  thought : JSValue
  thoughtNumber : JSValue
  totalThoughts : JSValue
  nextThoughtNeeded : JSValue
  isRevision : JSValue
  revisesThought : JSValue
  branchFromThought : JSValue
  branchId : JSValue
  needsMoreThoughts : JSValue
  deriving DecidableEq, Repr

/-- The `ThoughtData` record built by `validateThoughtData`.  The four
required fields are typed; the five optional fields are stored by unchecked
cast (`data.isRevision as boolean | undefined` etc.), so they keep the raw
`JSValue`. -/
structure ThoughtData where
  thought : String
  thoughtNumber : Int
  totalThoughts : Int
  nextThoughtNeeded : Bool
  isRevision : JSValue
  revisesThought : JSValue
  branchFromThought : JSValue
  branchId : JSValue
  needsMoreThoughts : JSValue
  deriving DecidableEq, Repr

/-- `SequentialThinkingServer.validateThoughtData` (src/index.ts 37-64).
Each required field is rejected when falsy (for `thought`,
`thoughtNumber`, `totalThoughts`) or of the wrong `typeof`;
`nextThoughtNeeded` is only checked to be a boolean. -/
def validateThoughtData (input : ThoughtInput) : Except String ThoughtData :=
  if !input.thought.truthy || !input.thought.isStr then
    .error "Invalid thought: must be a string"
  else if !input.thoughtNumber.truthy || !input.thoughtNumber.isNum then
    .error "Invalid thoughtNumber: must be a number"
  else if !input.totalThoughts.truthy || !input.totalThoughts.isNum then
    .error "Invalid totalThoughts: must be a number"
  else if !input.nextThoughtNeeded.isBool then
    .error "Invalid nextThoughtNeeded: must be a boolean"
  else
    .ok { thought := input.thought.getStr
          thoughtNumber := input.thoughtNumber.getNum
          totalThoughts := input.totalThoughts.getNum
          nextThoughtNeeded := input.nextThoughtNeeded.getBool
          isRevision := input.isRevision
          revisesThought := input.revisesThought
          branchFromThought := input.branchFromThought
          branchId := input.branchId
          needsMoreThoughts := input.needsMoreThoughts }

/-- The mutable state of `SequentialThinkingServer`:
`thoughtHistory` and `branches` (src/index.ts 34-35). -/
structure SessionState where
  thoughtHistory : List ThoughtData
  branches : List (String × List ThoughtData)
  deriving DecidableEq, Repr

/-- Fresh server state: both fields start empty. -/
def SessionState.init : SessionState := { thoughtHistory := [], branches := [] }

/-- `this.branches[id] = this.branches[id] ?? []; this.branches[id].push(v)`
on the association-list model of the record. -/
def pushBranch (bs : List (String × List ThoughtData)) (key : String)
    (v : ThoughtData) : List (String × List ThoughtData) :=
  if bs.any (fun p => p.1 == key) then
    bs.map (fun p => if p.1 == key then (p.1, p.2 ++ [v]) else p)
  else
    bs ++ [(key, [v])]

/-- `Object.keys(this.branches)`. -/
def branchKeys (bs : List (String × List ThoughtData)) : List String :=
  bs.map Prod.fst

/-- `this.branches[key]`, empty when absent. -/
def lookupBranch (bs : List (String × List ThoughtData)) (key : String) :
    List ThoughtData :=
  match bs.find? (fun p => p.1 == key) with
  | some p => p.2
  | none => []

/-- The JSON object returned in the success envelope of `processThought`
(src/index.ts 117-123). -/
structure ThoughtSummary where
  thoughtNumber : Int
  totalThoughts : Int
  nextThoughtNeeded : Bool
  branches : List String
  thoughtHistoryLength : Nat
  deriving DecidableEq, Repr

/-- The envelope `processThought` returns: a success summary, or a failure
body with `isError: true` (the catch branch, src/index.ts 126-137). -/
inductive ThoughtResponse where
  | success (s : ThoughtSummary)
  | failure (msg : String)
  deriving DecidableEq, Repr

/-- The `isError` flag of the envelope (absent, i.e. false, on success). -/
def ThoughtResponse.isError : ThoughtResponse → Bool
  | .success _ => false
  | .failure _ => true

/-- `SequentialThinkingServer.processThought` (src/index.ts 94-138):
validate, raise `totalThoughts` to `thoughtNumber` when exceeded, push to
history, push to the branch record when both branch fields are truthy, and
return the summary; a validation throw is caught and returned as an error
envelope without touching the state. -/
def processThought (state : SessionState) (input : ThoughtInput) :
    SessionState × ThoughtResponse :=
  match validateThoughtData input with
  | .error msg => (state, .failure msg)
  | .ok validated =>
    let v := if validated.thoughtNumber > validated.totalThoughts
             then { validated with totalThoughts := validated.thoughtNumber }
             else validated
    let hist := state.thoughtHistory ++ [v]
    let bs := if v.branchFromThought.truthy && v.branchId.truthy
              then pushBranch state.branches v.branchId.keyStr v
              else state.branches
    ({ thoughtHistory := hist, branches := bs },
      .success { thoughtNumber := v.thoughtNumber
                 totalThoughts := v.totalThoughts
                 nextThoughtNeeded := v.nextThoughtNeeded
                 branches := branchKeys bs
                 thoughtHistoryLength := hist.length })

/-- Run a sequence of `sequentialthinking` calls, threading the state. -/
def runThoughts (st : SessionState) : List ThoughtInput → SessionState
  | [] => st
  | i :: rest => runThoughts (processThought st i).1 rest

/-- Boolean success test for the validator result. -/
def exceptIsOk : Except String ThoughtData → Bool
  | .ok _ => true
  | .error _ => false

/-! ## Facility search (find_nearby_medical_facilities) -/

/-- `z.enum(["high", "medium", "any"])` for `careQuality`. -/
inductive CareQuality where
  | high
  | medium
  | any
  deriving DecidableEq, Repr

def CareQuality.str : CareQuality → String
  | .high => "high"
  | .medium => "medium"
  | .any => "any"

/-- `z.enum(["low", "moderate", "high", "any"])` for `priceRange`. -/
inductive PriceRange where
  | low
  | moderate
  | high
  | any
  deriving DecidableEq, Repr

def PriceRange.str : PriceRange → String
  | .low => "low"
  | .moderate => "moderate"
  | .high => "high"
  | .any => "any"

/-- `z.enum(["hospital", "clinic", "emergency", "pharmacy", "specialist"])`. -/
inductive FacilityType where
  | hospital
  | clinic
  | emergency
  | pharmacy
  | specialist
  deriving DecidableEq, Repr

def FacilityType.str : FacilityType → String
  | .hospital => "hospital"
  | .clinic => "clinic"
  | .emergency => "emergency"
  | .pharmacy => "pharmacy"
  | .specialist => "specialist"

/-- `z.enum(["excellent", "good", "any"])` for `infrastructure`. -/
inductive InfraQuality where
  | excellent
  | good
  | any
  deriving DecidableEq, Repr

def InfraQuality.str : InfraQuality → String
  | .excellent => "excellent"
  | .good => "good"
  | .any => "any"

/-- The output of `FindNearbyMedicalFacilitiesSchema.parse` (src/index.ts
219-228); zod guarantees the enum fields, so they are typed enums here. -/
structure FacilityArgs where
  userLocation : String
  radius : Int
  treatmentNeeds : Option (List String)
  careQuality : Option CareQuality
  priceRange : Option PriceRange
  facilities : Option (List FacilityType)
  infrastructure : Option InfraQuality
  deriving DecidableEq, Repr

/-- One entry of the `mockFacilities` array (src/index.ts 303-334). -/
structure Facility where
  name : String
  address : String
  distance : String
  type : String
  treatmentsAvailable : List String
  careQuality : String
  priceRange : String
  infrastructure : String
  deriving DecidableEq, Repr

/-- The fixed three-element candidate set (src/index.ts 303-334). -/
def mockFacilities : List Facility :=
  [ { name := "General Hospital"
      address := "123 Main St, Cityville"
      distance := "2.3 km"
      type := "hospital"
      treatmentsAvailable := ["emergency", "surgery", "cardiology"]
      careQuality := "high"
      priceRange := "moderate"
      infrastructure := "excellent" },
    { name := "Community Clinic"
      address := "456 Oak Ave, Cityville"
      distance := "3.8 km"
      type := "clinic"
      treatmentsAvailable := ["general practice", "pediatrics"]
      careQuality := "medium"
      priceRange := "low"
      infrastructure := "good" },
    { name := "Specialized Medical Center"
      address := "789 Pine St, Cityville"
      distance := "5.1 km"
      type := "specialist"
      treatmentsAvailable := ["oncology", "neurology"]
      careQuality := "high"
      priceRange := "high"
      infrastructure := "excellent" } ]

/-- The per-facility predicate of the care-quality filter branch
(src/index.ts 350-354). -/
def careQualityPred (q : CareQuality) (fac : Facility) : Bool :=
  fac.careQuality == q.str ||
  (q == .high && fac.careQuality == "high") ||
  (q == .medium && (["medium", "high"] : List String).contains fac.careQuality)

/-- The per-facility predicate of the infrastructure filter branch
(src/index.ts 371-374). -/
def infrastructurePred (i : InfraQuality) (fac : Facility) : Bool :=
  fac.infrastructure == i.str ||
  (i == .good && (["good", "excellent"] : List String).contains fac.infrastructure)

/-- `if (validatedArgs.treatmentNeeds && validatedArgs.treatmentNeeds.length > 0)`
filter step (src/index.ts 340-346). -/
def filterByTreatmentNeeds (args : FacilityArgs) (fs : List Facility) :
    List Facility :=
  match args.treatmentNeeds with
  | some ts =>
    if ts.length > 0 then
      fs.filter (fun fac => ts.any (fun t => fac.treatmentsAvailable.contains t))
    else fs
  | none => fs

/-- Care-quality filter step (src/index.ts 349-355). -/
def filterByCareQuality (args : FacilityArgs) (fs : List Facility) :
    List Facility :=
  match args.careQuality with
  | some q => if q != .any then fs.filter (careQualityPred q) else fs
  | none => fs

/-- Price-range filter step (src/index.ts 358-360). -/
def filterByPriceRange (args : FacilityArgs) (fs : List Facility) :
    List Facility :=
  match args.priceRange with
  | some p => if p != .any then fs.filter (fun fac => fac.priceRange == p.str) else fs
  | none => fs

/-- Facility-type filter step (src/index.ts 363-367):
`validatedArgs.facilities!.includes(facility.type)`. -/
def filterByFacilityTypes (args : FacilityArgs) (fs : List Facility) :
    List Facility :=
  match args.facilities with
  | some l =>
    if l.length > 0 then
      fs.filter (fun fac => (l.map FacilityType.str).contains fac.type)
    else fs
  | none => fs

/-- Infrastructure filter step (src/index.ts 370-375). -/
def filterByInfrastructure (args : FacilityArgs) (fs : List Facility) :
    List Facility :=
  match args.infrastructure with
  | some i => if i != .any then fs.filter (infrastructurePred i) else fs
  | none => fs

/-- The facility list produced by the `find_nearby_medical_facilities`
handler (src/index.ts 336-375): the mock set run through the five filter
steps in source order. -/
def findNearbyMedicalFacilities (args : FacilityArgs) : List Facility :=
  filterByInfrastructure args
    (filterByFacilityTypes args
      (filterByPriceRange args
        (filterByCareQuality args
          (filterByTreatmentNeeds args mockFacilities))))

/-- Spec-side treatment-needs predicate (spec.md §4.2: "treatment needs —
any-match"; a present but empty list specifies zero criteria). -/
def specTreatmentOk (args : FacilityArgs) (fac : Facility) : Bool :=
  match args.treatmentNeeds with
  | some ts => ts.length == 0 || ts.any (fun t => fac.treatmentsAvailable.contains t)
  | none => true

/-- Spec-side care-quality predicate (spec.md §4.2: "care-quality —
exact-or-better on an ordinal high>medium>any scale"). -/
def specCareOk (args : FacilityArgs) (fac : Facility) : Bool :=
  match args.careQuality with
  | some .high => fac.careQuality == "high"
  | some .medium => fac.careQuality == "medium" || fac.careQuality == "high"
  | some .any => true
  | none => true

/-- Spec-side price predicate (spec.md §4.2: "price range — exact match"). -/
def specPriceOk (args : FacilityArgs) (fac : Facility) : Bool :=
  match args.priceRange with
  | some p => p == .any || fac.priceRange == p.str
  | none => true

/-- Spec-side facility-type predicate (spec.md §4.2: "facility type — set
membership"). -/
def specTypeOk (args : FacilityArgs) (fac : Facility) : Bool :=
  match args.facilities with
  | some l => l.length == 0 || (l.map FacilityType.str).contains fac.type
  | none => true

/-- Spec-side infrastructure predicate (spec.md §4.2: "infrastructure —
exact-or-better on excellent>good>any"). -/
def specInfraOk (args : FacilityArgs) (fac : Facility) : Bool :=
  match args.infrastructure with
  | some .excellent => fac.infrastructure == "excellent"
  | some .good => fac.infrastructure == "good" || fac.infrastructure == "excellent"
  | some .any => true
  | none => true

/-- Spec-side facility predicate, written from the specification text
(spec.md §4.2 and §8), for comparison with the source-derived pipeline:
each specified filter is an independent predicate and the filters are
intersected with AND. -/
def specFacilityMatches (args : FacilityArgs) (fac : Facility) : Bool :=
  specTreatmentOk args fac && specCareOk args fac && specPriceOk args fac &&
  specTypeOk args fac && specInfraOk args fac

/-! ## The remaining tool schemas and the dispatcher -/

/-- Output of `CheckMedicareCoverageSchema.parse` (src/index.ts 230-234). -/
structure CoverageArgs where
  treatmentCode : String
  state : String
  insuranceType : Option String
  deriving DecidableEq, Repr

/-- Output of `GetEmergencyContactsSchema.parse` (src/index.ts 236-239). -/
structure ContactArgs where
  location : String
  serviceType : Option (List String)
  deriving DecidableEq, Repr

/-- `z.enum(["critical", "urgent", "standard"])`. -/
inductive Urgency where
  | critical
  | urgent
  | standard
  deriving DecidableEq, Repr

/-- Output of `ScheduleEmergencyTransportSchema.parse` (src/index.ts 241-246). -/
structure TransportArgs where
  patientLocation : String
  destination : Option String
  medicalCondition : String
  urgency : Urgency
  deriving DecidableEq, Repr

/-- The raw `arguments` value of a tool-call request, as the per-tool zod
parser sees it: a blob that parses for exactly one of the declared shapes
(or, for `sequentialthinking`, an untyped key-value record). -/
inductive RawArgs where
  | thoughtArgs (i : ThoughtInput)
  | facilityArgs (a : FacilityArgs)
  | coverageArgs (a : CoverageArgs)
  | contactArgs (a : ContactArgs)
  | transportArgs (a : TransportArgs)
  deriving DecidableEq, Repr

/-- A request object with every key absent. -/
def emptyThoughtInput : ThoughtInput :=
  { thought := .undef, thoughtNumber := .undef, totalThoughts := .undef
    nextThoughtNeeded := .undef, isRevision := .undef, revisesThought := .undef
    branchFromThought := .undef, branchId := .undef, needsMoreThoughts := .undef }

/-- `processThought` receives the raw arguments as `unknown`: a blob of a
different shape reads every thought key as absent. -/
def RawArgs.asThoughtInput : RawArgs → ThoughtInput
  | .thoughtArgs i => i
  | _ => emptyThoughtInput

/-- `FindNearbyMedicalFacilitiesSchema.parse` on the raw blob; the zod
error message text is abstracted. -/
def parseFacilityArgs : RawArgs → Except String FacilityArgs
  | .facilityArgs a => .ok a
  | _ => .error "Invalid arguments for find_nearby_medical_facilities"

def parseCoverageArgs : RawArgs → Except String CoverageArgs
  | .coverageArgs a => .ok a
  | _ => .error "Invalid arguments for check_medicare_coverage"

def parseContactArgs : RawArgs → Except String ContactArgs
  | .contactArgs a => .ok a
  | _ => .error "Invalid arguments for get_emergency_contacts"

def parseTransportArgs : RawArgs → Except String TransportArgs
  | .transportArgs a => .ok a
  | _ => .error "Invalid arguments for schedule_emergency_transport"

/-- The result of one dispatched tool call, keeping the structured payload
of each handler; `callError` is the catch branch of the dispatcher
(src/index.ts 447-457), whose text payload is
`"Error: " ++ msg` with the error flag set. -/
inductive CallOutcome where
  | thought (r : ThoughtResponse)
  | facilityReport (location : String) (radius : Int) (results : List Facility)
  | coverageReport (a : CoverageArgs)
  | contactsReport (location : String)
  | transportReport (a : TransportArgs) (transportId : Nat)
  | callError (msg : String)
  deriving DecidableEq, Repr

/-- The `isError` flag of the returned envelope. -/
def CallOutcome.isError : CallOutcome → Bool
  | .thought r => r.isError
  | .callError _ => true
  | _ => false

/-- The catalog of tool names registered with the server
(src/index.ts 262-287). -/
def toolCatalog : List String :=
  ["find_nearby_medical_facilities", "check_medicare_coverage",
   "get_emergency_contacts", "schedule_emergency_transport",
   "sequentialthinking"]

/-- The `CallToolRequestSchema` handler (src/index.ts 289-458):
`sequentialthinking` goes to the session tracker, the four schema tools
parse then run their mock handler, and an unknown name throws
`Unknown tool: ${name}`, which the catch turns into an error envelope.
`randId` stands for the `Math.random` transport id. -/
def handleToolCall (st : SessionState) (name : String) (args : RawArgs)
    (randId : Nat) : SessionState × CallOutcome :=
  if name == "sequentialthinking" then
    let r := processThought st args.asThoughtInput
    (r.1, .thought r.2)
  else if name == "find_nearby_medical_facilities" then
    match parseFacilityArgs args with
    | .ok a => (st, .facilityReport a.userLocation a.radius (findNearbyMedicalFacilities a))
    | .error m => (st, .callError m)
  else if name == "check_medicare_coverage" then
    match parseCoverageArgs args with
    | .ok a => (st, .coverageReport a)
    | .error m => (st, .callError m)
  else if name == "get_emergency_contacts" then
    match parseContactArgs args with
    | .ok a => (st, .contactsReport a.location)
    | .error m => (st, .callError m)
  else if name == "schedule_emergency_transport" then
    match parseTransportArgs args with
    | .ok a => (st, .transportReport a randId)
    | .error m => (st, .callError m)
  else
    (st, .callError ("Unknown tool: " ++ name))

/-! ## Helper lemmas -/

/-- Elimination for a successful validation: the produced record is the
literal copy the source builds. -/
lemma validate_ok_elim (i : ThoughtInput) (v : ThoughtData)
    (h : validateThoughtData i = .ok v) :
    v = { thought := i.thought.getStr
          thoughtNumber := i.thoughtNumber.getNum
          totalThoughts := i.totalThoughts.getNum
          nextThoughtNeeded := i.nextThoughtNeeded.getBool
          isRevision := i.isRevision
          revisesThought := i.revisesThought
          branchFromThought := i.branchFromThought
          branchId := i.branchId
          needsMoreThoughts := i.needsMoreThoughts } := by
  unfold validateThoughtData at h
  split_ifs at h
  exact (Except.ok.injEq _ _).mp h.symm

/-- The validator succeeds exactly when the four required-field checks
pass. -/
lemma validate_isOk_eq (i : ThoughtInput) :
    exceptIsOk (validateThoughtData i) =
      ((i.thought.truthy && i.thought.isStr) &&
       (i.thoughtNumber.truthy && i.thoughtNumber.isNum) &&
       (i.totalThoughts.truthy && i.totalThoughts.isNum) &&
       i.nextThoughtNeeded.isBool) := by
  unfold validateThoughtData
  cases h1 : i.thought.truthy <;> cases h2 : i.thought.isStr <;>
    cases h3 : i.thoughtNumber.truthy <;> cases h4 : i.thoughtNumber.isNum <;>
      cases h5 : i.totalThoughts.truthy <;> cases h6 : i.totalThoughts.isNum <;>
        cases h7 : i.nextThoughtNeeded.isBool <;>
          simp [h1, h2, h3, h4, h5, h6, h7, exceptIsOk]

/-- A failed validation leaves the state untouched and returns the failure
envelope. -/
lemma processThought_err (st : SessionState) (i : ThoughtInput) (msg : String)
    (h : validateThoughtData i = .error msg) :
    processThought st i = (st, .failure msg) := by
  unfold processThought
  rw [h]

/-- A successful validation appends exactly one normalized step and returns
the summary built from it. -/
lemma processThought_ok (st : SessionState) (i : ThoughtInput) (v : ThoughtData)
    (h : validateThoughtData i = .ok v) :
    processThought st i =
      (let w := if v.thoughtNumber > v.totalThoughts
                then { v with totalThoughts := v.thoughtNumber } else v
       let bs := if w.branchFromThought.truthy && w.branchId.truthy
                 then pushBranch st.branches w.branchId.keyStr w
                 else st.branches
       ({ thoughtHistory := st.thoughtHistory ++ [w], branches := bs },
        .success { thoughtNumber := w.thoughtNumber
                   totalThoughts := w.totalThoughts
                   nextThoughtNeeded := w.nextThoughtNeeded
                   branches := branchKeys bs
                   thoughtHistoryLength := (st.thoughtHistory ++ [w]).length })) := by
  unfold processThought
  rw [h]

/-- Whatever the input, `processThought` only ever appends to the history. -/
lemma processThought_history_tail (st : SessionState) (i : ThoughtInput) :
    ∃ tail, (processThought st i).1.thoughtHistory = st.thoughtHistory ++ tail := by
  unfold processThought
  cases h : validateThoughtData i with
  | error msg => exact ⟨[], by simp⟩
  | ok v => exact ⟨_, rfl⟩

/-- On valid input the history grows by exactly one entry and the summary
reports the new length. -/
lemma processThought_ok_length (st : SessionState) (i : ThoughtInput)
    (v : ThoughtData) (h : validateThoughtData i = .ok v) :
    (processThought st i).1.thoughtHistory.length = st.thoughtHistory.length + 1 ∧
    ∃ s, (processThought st i).2 = .success s ∧
      s.thoughtHistoryLength = st.thoughtHistory.length + 1 := by
  rw [processThought_ok st i v h]
  refine ⟨by simp, ⟨_, rfl, by simp⟩⟩

/-! ## Concrete sample inputs used by witnesses and counterexamples -/

/-- A step claiming number 5 of an estimated 3. -/
def stepInput53 : ThoughtInput :=
  { thought := .str "assess patient", thoughtNumber := .num 5, totalThoughts := .num 3
    nextThoughtNeeded := .bool true, isRevision := .undef, revisesThought := .undef
    branchFromThought := .undef, branchId := .undef, needsMoreThoughts := .undef }

/-- The record `validateThoughtData` produces for `stepInput53`. -/
def validated53 : ThoughtData :=
  { thought := "assess patient", thoughtNumber := 5, totalThoughts := 3
    nextThoughtNeeded := true, isRevision := .undef, revisesThought := .undef
    branchFromThought := .undef, branchId := .undef, needsMoreThoughts := .undef }

/-- A plain valid step 1 of 2. -/
def stepInputA : ThoughtInput :=
  { thought := .str "take history", thoughtNumber := .num 1, totalThoughts := .num 2
    nextThoughtNeeded := .bool true, isRevision := .undef, revisesThought := .undef
    branchFromThought := .undef, branchId := .undef, needsMoreThoughts := .undef }

/-- A plain valid step 2 of 2. -/
def stepInputB : ThoughtInput :=
  { thought := .str "order labs", thoughtNumber := .num 2, totalThoughts := .num 2
    nextThoughtNeeded := .bool false, isRevision := .undef, revisesThought := .undef
    branchFromThought := .undef, branchId := .undef, needsMoreThoughts := .undef }

/-- A step whose required `thought` key is absent. -/
def missingTextInput : ThoughtInput :=
  { thought := .undef, thoughtNumber := .num 1, totalThoughts := .num 1
    nextThoughtNeeded := .bool true, isRevision := .undef, revisesThought := .undef
    branchFromThought := .undef, branchId := .undef, needsMoreThoughts := .undef }

/-- An otherwise valid step whose step number is the out-of-range value -1. -/
def negativeStepInput : ThoughtInput :=
  { thought := .str "triage", thoughtNumber := .num (-1), totalThoughts := .num 3
    nextThoughtNeeded := .bool true, isRevision := .undef, revisesThought := .undef
    branchFromThought := .undef, branchId := .undef, needsMoreThoughts := .undef }

/-- An otherwise valid step whose step number is the out-of-range value 0. -/
def zeroStepInput : ThoughtInput :=
  { thought := .str "triage", thoughtNumber := .num 0, totalThoughts := .num 3
    nextThoughtNeeded := .bool true, isRevision := .undef, revisesThought := .undef
    branchFromThought := .undef, branchId := .undef, needsMoreThoughts := .undef }

/-! ## Claim theorems -/

/-- C1: for every reasoning step that passes structural validation, if its
step number exceeds its total-steps estimate then the step is stored and
reported with the estimate raised to the step number, and otherwise the
estimate is stored unchanged. -/
theorem upward_total_correction (st : SessionState) (i : ThoughtInput)
    (v : ThoughtData) (h : validateThoughtData i = .ok v) :
    ∃ w s, (processThought st i).1.thoughtHistory = st.thoughtHistory ++ [w] ∧
      (processThought st i).2 = .success s ∧
      w.thoughtNumber = v.thoughtNumber ∧
      s.thoughtNumber = v.thoughtNumber ∧
      w.totalThoughts =
        (if v.thoughtNumber > v.totalThoughts then v.thoughtNumber
         else v.totalThoughts) ∧
      s.totalThoughts = w.totalThoughts := by
  rw [processThought_ok st i v h]
  refine ⟨_, _, rfl, rfl, ?_, ?_, ?_, rfl⟩ <;>
    by_cases hgt : v.thoughtNumber > v.totalThoughts <;> simp [hgt]

/-- Witness for C1: submitting step number 5 with estimate 3 stores and
reports estimate 5. -/
theorem upward_total_correction_witness :
    0 < (5 : Int) - 3 ∧
    ∃ s, (processThought SessionState.init stepInput53).2 = .success s ∧
      s.totalThoughts = 5 := by
  refine ⟨by decide, ?_⟩
  obtain ⟨w, s, hh, hs, hwn, hsn, hw, hws⟩ :=
    upward_total_correction SessionState.init stepInput53 validated53 rfl
  refine ⟨s, hs, ?_⟩
  rw [hws, hw]
  decide

/-- C3: an input failing structural validation yields an envelope with the
error flag set (no exception escapes: `processThought` is total), and the
session state, in particular the history length, is unchanged. -/
theorem invalid_step_preserves_state (st : SessionState) (i : ThoughtInput)
    (msg : String) (h : validateThoughtData i = .error msg) :
    (processThought st i).2.isError = true ∧
    (processThought st i).1 = st ∧
    (processThought st i).1.thoughtHistory.length = st.thoughtHistory.length := by
  rw [processThought_err st i msg h]
  exact ⟨rfl, rfl, rfl⟩

/-- Witness for C3: a step with a missing `thought` field errors and leaves
the fresh session untouched. -/
theorem invalid_step_preserves_state_witness :
    (processThought SessionState.init missingTextInput).2.isError = true ∧
    (processThought SessionState.init missingTextInput).1 = SessionState.init ∧
    (processThought SessionState.init missingTextInput).1.thoughtHistory.length =
      SessionState.init.thoughtHistory.length :=
  invalid_step_preserves_state SessionState.init missingTextInput
    "Invalid thought: must be a string" rfl

/-- C5 counterexample: an otherwise valid step with `thoughtNumber = -1`,
a value outside the declared `integer ≥ 1` range, is NOT rejected: the
call succeeds and the step is recorded. -/
theorem negative_stepNumber_accepted :
    (processThought SessionState.init negativeStepInput).2.isError = false ∧
    (processThought SessionState.init negativeStepInput).1.thoughtHistory.length = 1 := by
  decide

/-- C5 amended: a step number or total-steps estimate of zero (or a missing
or non-numeric value) is rejected with a structural validation error, but
any nonzero numeric value — including negatives — passes the check: the
declared minimum of 1 is not enforced beyond rejecting zero. -/
theorem zero_rejected_nonzero_accepted :
    (∀ (st : SessionState) (i : ThoughtInput),
      (i.thoughtNumber = .num 0 ∨ i.totalThoughts = .num 0) →
      (processThought st i).2.isError = true) ∧
    (∀ (st : SessionState) (i : ThoughtInput) (s : String) (n m : Int) (b : Bool),
      s ≠ "" → n ≠ 0 → m ≠ 0 →
      i.thought = .str s → i.thoughtNumber = .num n → i.totalThoughts = .num m →
      i.nextThoughtNeeded = .bool b →
      (processThought st i).2.isError = false) := by
  constructor
  · intro st i hzero
    cases hv : validateThoughtData i with
    | error m => rw [processThought_err st i m hv]; rfl
    | ok v =>
      exfalso
      have hok : exceptIsOk (validateThoughtData i) = true := by
        rw [hv]; rfl
      rw [validate_isOk_eq] at hok
      rcases hzero with hz | hz <;> rw [hz] at hok <;>
        simp [JSValue.truthy] at hok
  · intro st i s n m b hs hn hm ht htn htt hb
    have hok : exceptIsOk (validateThoughtData i) = true := by
      rw [validate_isOk_eq, ht, htn, htt, hb]
      simp [JSValue.truthy, JSValue.isStr, JSValue.isNum, JSValue.isBool,
        bne_iff_ne, hs, hn, hm]
    cases hv : validateThoughtData i with
    | error msg =>
      rw [hv] at hok
      exact absurd hok (by simp [exceptIsOk])
    | ok v =>
      obtain ⟨_, s2, hs2, _⟩ := processThought_ok_length st i v hv
      rw [hs2]
      rfl

/-- Witness for the amended C5: a zero step number errors, while the
negative one from the counterexample is accepted. -/
theorem zero_rejected_nonzero_accepted_witness :
    (processThought SessionState.init zeroStepInput).2.isError = true ∧
    (processThought SessionState.init negativeStepInput).2.isError = false := by
  constructor
  · exact zero_rejected_nonzero_accepted.1 SessionState.init zeroStepInput (Or.inl rfl)
  · exact zero_rejected_nonzero_accepted.2 SessionState.init negativeStepInput
      "triage" (-1) 3 true (by decide) (by decide) (by decide) rfl rfl rfl rfl

/-- Running a list of valid steps grows the history by exactly the number
of steps. -/
lemma runThoughts_length (inputs : List ThoughtInput) :
    ∀ st : SessionState,
      (∀ i ∈ inputs, exceptIsOk (validateThoughtData i) = true) →
      (runThoughts st inputs).thoughtHistory.length =
        st.thoughtHistory.length + inputs.length := by
  induction inputs with
  | nil =>
    intro st _
    simp [runThoughts]
  | cons i rest ih =>
    intro st h
    have hi := h i (by simp)
    cases hv : validateThoughtData i with
    | error m => rw [hv] at hi; exact absurd hi (by simp [exceptIsOk])
    | ok v =>
      have hlen := (processThought_ok_length st i v hv).1
      have htail := ih (processThought st i).1 (fun j hj => h j (by simp [hj]))
      rw [runThoughts, htail, hlen]
      simp only [List.length_cons]
      omega

/-- C2: `handleToolCall` only ever appends to the history (no entry is
removed, reordered or overwritten by any operation); a run of N valid
reasoning steps from a fresh session leaves a history of length exactly N,
and the N-th call reports that length in its summary. -/
theorem history_append_only :
    (∀ (st : SessionState) (name : String) (args : RawArgs) (rid : Nat),
      ∃ tail, (handleToolCall st name args rid).1.thoughtHistory =
        st.thoughtHistory ++ tail) ∧
    (∀ inputs : List ThoughtInput,
      (∀ i ∈ inputs, exceptIsOk (validateThoughtData i) = true) →
      (runThoughts SessionState.init inputs).thoughtHistory.length = inputs.length) ∧
    (∀ (prev : List ThoughtInput) (i : ThoughtInput),
      (∀ j ∈ prev, exceptIsOk (validateThoughtData j) = true) →
      exceptIsOk (validateThoughtData i) = true →
      ∃ s, (processThought (runThoughts SessionState.init prev) i).2 = .success s ∧
        s.thoughtHistoryLength = prev.length + 1) := by
  refine ⟨?_, ?_, ?_⟩
  · intro st name args rid
    unfold handleToolCall
    split_ifs
    · simpa using processThought_history_tail st args.asThoughtInput
    · cases hp : parseFacilityArgs args <;> exact ⟨[], by simp [hp]⟩
    · cases hp : parseCoverageArgs args <;> exact ⟨[], by simp [hp]⟩
    · cases hp : parseContactArgs args <;> exact ⟨[], by simp [hp]⟩
    · cases hp : parseTransportArgs args <;> exact ⟨[], by simp [hp]⟩
    · exact ⟨[], by simp⟩
  · intro inputs h
    have := runThoughts_length inputs SessionState.init h
    simpa [SessionState.init] using this
  · intro prev i hprev hi
    cases hv : validateThoughtData i with
    | error m => rw [hv] at hi; exact absurd hi (by simp [exceptIsOk])
    | ok v =>
      obtain ⟨_, s, hs, hlen⟩ :=
        processThought_ok_length (runThoughts SessionState.init prev) i v hv
      refine ⟨s, hs, ?_⟩
      rw [hlen, runThoughts_length prev SessionState.init hprev]
      simp [SessionState.init]

/-- Witness for C2: two valid steps leave a history of length 2, and the
second call reports length 2. -/
theorem history_append_only_witness :
    (runThoughts SessionState.init [stepInputA, stepInputB]).thoughtHistory.length = 2 ∧
    (∃ s, (processThought (runThoughts SessionState.init [stepInputA]) stepInputB).2 =
        .success s ∧ s.thoughtHistoryLength = 2) ∧
    (∃ tail, (handleToolCall SessionState.init "sequentialthinking"
        (.thoughtArgs stepInputA) 0).1.thoughtHistory = [] ++ tail) := by
  refine ⟨history_append_only.2.1 _ ?_, ?_, ?_⟩
  · intro i hi
    simp only [List.mem_cons, List.not_mem_nil, or_false] at hi
    rcases hi with h | h <;> subst h <;> rfl
  · simpa using history_append_only.2.2 [stepInputA] stepInputB
      (by intro j hj; simp only [List.mem_singleton] at hj; subst hj; rfl) rfl
  · exact history_append_only.1 SessionState.init "sequentialthinking"
      (.thoughtArgs stepInputA) 0

/-- The required-field check on `thought` passes exactly for nonempty
strings. -/
lemma truthy_str_iff (x : JSValue) :
    (x.truthy && x.isStr) = true ↔ ∃ s, x = .str s ∧ s ≠ "" := by
  cases x <;> simp [JSValue.truthy, JSValue.isStr]

/-- The required-field check on the numeric fields passes exactly for
nonzero numbers. -/
lemma truthy_num_iff (x : JSValue) :
    (x.truthy && x.isNum) = true ↔ ∃ n, x = .num n ∧ n ≠ 0 := by
  cases x <;> simp [JSValue.truthy, JSValue.isNum]

/-- The boolean-field check passes exactly for booleans. -/
lemma isBool_iff (x : JSValue) :
    x.isBool = true ↔ ∃ b, x = .bool b := by
  cases x <;> simp [JSValue.isBool]

/-- C9: the reasoning-step operation errors exactly when one of the four
required-field checks fails — `thought` must be a nonempty string,
`thoughtNumber` and `totalThoughts` nonzero numbers, `nextThoughtNeeded` a
boolean; the five optional keys are never type-checked (changing them
cannot change acceptance) and are stored verbatim on success. -/
theorem validation_error_characterization (i : ThoughtInput) :
    (exceptIsOk (validateThoughtData i) = true ↔
      ((∃ s, i.thought = .str s ∧ s ≠ "") ∧
       (∃ n, i.thoughtNumber = .num n ∧ n ≠ 0) ∧
       (∃ m, i.totalThoughts = .num m ∧ m ≠ 0) ∧
       (∃ b, i.nextThoughtNeeded = .bool b))) ∧
    (∀ r rv bf bid nm : JSValue,
      exceptIsOk (validateThoughtData
        { i with isRevision := r, revisesThought := rv, branchFromThought := bf,
                 branchId := bid, needsMoreThoughts := nm }) =
        exceptIsOk (validateThoughtData i)) ∧
    (∀ v, validateThoughtData i = .ok v →
      v.isRevision = i.isRevision ∧ v.revisesThought = i.revisesThought ∧
      v.branchFromThought = i.branchFromThought ∧ v.branchId = i.branchId ∧
      v.needsMoreThoughts = i.needsMoreThoughts) := by
  refine ⟨?_, ?_, ?_⟩
  · rw [validate_isOk_eq]
    constructor
    · intro hok
      rw [Bool.and_eq_true, Bool.and_eq_true, Bool.and_eq_true] at hok
      exact ⟨(truthy_str_iff _).mp hok.1.1.1, (truthy_num_iff _).mp hok.1.1.2,
             (truthy_num_iff _).mp hok.1.2, (isBool_iff _).mp hok.2⟩
    · rintro ⟨hs, hn, hm, hb⟩
      rw [Bool.and_eq_true, Bool.and_eq_true, Bool.and_eq_true]
      exact ⟨⟨⟨(truthy_str_iff _).mpr hs, (truthy_num_iff _).mpr hn⟩,
             (truthy_num_iff _).mpr hm⟩, (isBool_iff _).mpr hb⟩
  · intro r rv bf bid nm
    rw [validate_isOk_eq, validate_isOk_eq]
  · intro v hv
    have e := validate_ok_elim i v hv
    rw [e]
    exact ⟨rfl, rfl, rfl, rfl, rfl⟩

/-- Witness for C9: a concrete valid step is accepted via the
characterization, and a wildly typed optional key does not change
acceptance. -/
theorem validation_error_characterization_witness :
    exceptIsOk (validateThoughtData stepInputA) = true ∧
    exceptIsOk (validateThoughtData
      { stepInputA with isRevision := .str "not a bool", revisesThought := .bool true,
                        branchFromThought := .str "x", branchId := .num 7,
                        needsMoreThoughts := .null }) =
      exceptIsOk (validateThoughtData stepInputA) := by
  constructor
  · exact (validation_error_characterization stepInputA).1.mpr
      ⟨⟨"take history", rfl, by decide⟩, ⟨1, rfl, by decide⟩,
       ⟨2, rfl, by decide⟩, ⟨true, rfl⟩⟩
  · exact (validation_error_characterization stepInputA).2.1
      (.str "not a bool") (.bool true) (.str "x") (.num 7) .null

/-- The upward normalization does not change the branch-related fields of
the stored step. -/
lemma normalize_branch_fields (v : ThoughtData) (c : Prop) [Decidable c] :
    ((if c then { v with totalThoughts := v.thoughtNumber } else v).branchFromThought =
        v.branchFromThought) ∧
    ((if c then { v with totalThoughts := v.thoughtNumber } else v).branchId =
        v.branchId) := by
  split <;> exact ⟨rfl, rfl⟩

/-- C10: a valid step carrying only one of the two branch fields (branch id
without branch-from-step, or the reverse) succeeds and is appended to the
history, but no branch sequence is created or extended, and the reported
branch-label list is unchanged. -/
theorem lone_branch_field_ignored (st : SessionState) (i : ThoughtInput)
    (v : ThoughtData) (h : validateThoughtData i = .ok v)
    (hb : i.branchFromThought.truthy = false ∨ i.branchId.truthy = false) :
    (processThought st i).2.isError = false ∧
    (∃ w, (processThought st i).1.thoughtHistory = st.thoughtHistory ++ [w]) ∧
    (processThought st i).1.branches = st.branches ∧
    ∃ s, (processThought st i).2 = .success s ∧ s.branches = branchKeys st.branches := by
  have e := validate_ok_elim i v h
  rw [processThought_ok st i v h]
  have hcond : ((if v.thoughtNumber > v.totalThoughts
      then { v with totalThoughts := v.thoughtNumber } else v).branchFromThought.truthy &&
      (if v.thoughtNumber > v.totalThoughts
      then { v with totalThoughts := v.thoughtNumber } else v).branchId.truthy) = false := by
    rw [(normalize_branch_fields v _).1, (normalize_branch_fields v _).2, e]
    rcases hb with hb | hb <;> simp [hb]
  refine ⟨?_, ?_, ?_, ?_⟩ <;> simp [hcond, ThoughtResponse.isError]

/-- C8: a request whose operation name is not in the catalog returns an
error envelope carrying the offending name, with no handler side effects:
the session state is exactly what it was before the call. -/
theorem unknown_tool_no_effect (st : SessionState) (name : String)
    (args : RawArgs) (rid : Nat) (h : name ∉ toolCatalog) :
    handleToolCall st name args rid = (st, .callError ("Unknown tool: " ++ name)) ∧
    (handleToolCall st name args rid).2.isError = true := by
  simp only [toolCatalog, List.mem_cons, List.not_mem_nil, or_false, not_or] at h
  obtain ⟨hf, hc, hg, hs, hq⟩ := h
  have e : handleToolCall st name args rid =
      (st, .callError ("Unknown tool: " ++ name)) := by
    unfold handleToolCall
    rw [if_neg (by simp [hq]), if_neg (by simp [hf]), if_neg (by simp [hc]),
        if_neg (by simp [hg]), if_neg (by simp [hs])]
  exact ⟨e, by rw [e]; rfl⟩

/-- Witness for C8: the name "doesNotExist" yields the error envelope and
leaves the fresh session unchanged. -/
theorem unknown_tool_no_effect_witness :
    handleToolCall SessionState.init "doesNotExist" (.thoughtArgs stepInputA) 0 =
      (SessionState.init, .callError ("Unknown tool: " ++ "doesNotExist")) ∧
    (handleToolCall SessionState.init "doesNotExist"
        (.thoughtArgs stepInputA) 0).2.isError = true :=
  unknown_tool_no_effect SessionState.init "doesNotExist" (.thoughtArgs stepInputA) 0
    (by decide)

/-- When both branch fields are truthy, the step is pushed onto the branch
record under its branch id, and the summary lists the resulting keys. -/
lemma processThought_ok_branch_push (st : SessionState) (i : ThoughtInput)
    (v : ThoughtData) (h : validateThoughtData i = .ok v)
    (hc : (v.branchFromThought.truthy && v.branchId.truthy) = true) :
    ∃ w, w.branchId = v.branchId ∧
      (processThought st i).1.branches = pushBranch st.branches v.branchId.keyStr w ∧
      (processThought st i).1.thoughtHistory = st.thoughtHistory ++ [w] ∧
      ∃ s, (processThought st i).2 = .success s ∧
        s.branches = branchKeys (pushBranch st.branches v.branchId.keyStr w) := by
  rw [processThought_ok st i v h]
  have hbf := (normalize_branch_fields v (v.thoughtNumber > v.totalThoughts)).1
  have hbi := (normalize_branch_fields v (v.thoughtNumber > v.totalThoughts)).2
  refine ⟨_, hbi, ?_, ?_, ?_⟩ <;> simp [hbf, hbi, hc]

/-- C4: a valid step with `branchFromStep = 2` and `branchId = "alt-1"`,
followed by another valid step on the same branch (same `branchId`, with a
branch-from reference present), yields the branch-label list `["alt-1"]`
(so "alt-1" appears exactly once), a recorded sequence of length 2 for
"alt-1" — one entry per step submitted with that `branchId` — and a summary
reporting that label list. -/
theorem branch_accumulation (i1 i2 : ThoughtInput) (v1 v2 : ThoughtData)
    (h1 : validateThoughtData i1 = .ok v1) (h2 : validateThoughtData i2 = .ok v2)
    (hb1 : i1.branchFromThought = .num 2) (hid1 : i1.branchId = .str "alt-1")
    (hb2 : i2.branchFromThought.truthy = true) (hid2 : i2.branchId = .str "alt-1") :
    branchKeys ((processThought (processThought SessionState.init i1).1 i2).1.branches) =
      ["alt-1"] ∧
    (lookupBranch ((processThought (processThought SessionState.init i1).1 i2).1.branches)
        "alt-1").length = 2 ∧
    ∃ s, (processThought (processThought SessionState.init i1).1 i2).2 = .success s ∧
      s.branches = ["alt-1"] := by
  have e1 := validate_ok_elim i1 v1 h1
  have e2 := validate_ok_elim i2 v2 h2
  have hv1b : v1.branchFromThought = .num 2 := by rw [e1]; exact hb1
  have hv1i : v1.branchId = .str "alt-1" := by rw [e1]; exact hid1
  have hv2b : v2.branchFromThought.truthy = true := by rw [e2]; exact hb2
  have hv2i : v2.branchId = .str "alt-1" := by rw [e2]; exact hid2
  have c1 : (v1.branchFromThought.truthy && v1.branchId.truthy) = true := by
    rw [hv1b, hv1i]; decide
  have c2 : (v2.branchFromThought.truthy && v2.branchId.truthy) = true := by
    rw [hv2i, hv2b]; decide
  obtain ⟨w1, hw1i, hb1s, hh1, _⟩ :=
    processThought_ok_branch_push SessionState.init i1 v1 h1 c1
  obtain ⟨w2, hw2i, hb2s, hh2, s2, hs2, hs2b⟩ :=
    processThought_ok_branch_push (processThought SessionState.init i1).1 i2 v2 h2 c2
  have hst1 : (processThought SessionState.init i1).1.branches = [("alt-1", [w1])] := by
    rw [hb1s, hv1i]
    simp [pushBranch, SessionState.init, JSValue.keyStr]
  have hst2 : (processThought (processThought SessionState.init i1).1 i2).1.branches =
      [("alt-1", [w1, w2])] := by
    rw [hb2s, hv2i, hst1]
    simp [pushBranch, JSValue.keyStr]
  refine ⟨?_, ?_, s2, hs2, ?_⟩
  · rw [hst2]; rfl
  · rw [hst2]; rfl
  · rw [hs2b, hv2i, hst1]
    simp [pushBranch, branchKeys, JSValue.keyStr]

/-- A first concrete branching step: number 3 of 3, branching from step 2
under label "alt-1". -/
def branchInput1 : ThoughtInput :=
  { thought := .str "consider alternative diagnosis", thoughtNumber := .num 3
    totalThoughts := .num 3, nextThoughtNeeded := .bool true, isRevision := .undef
    revisesThought := .undef, branchFromThought := .num 2
    branchId := .str "alt-1", needsMoreThoughts := .undef }

/-- A second concrete step on the same branch. -/
def branchInput2 : ThoughtInput :=
  { thought := .str "test alternative", thoughtNumber := .num 4
    totalThoughts := .num 4, nextThoughtNeeded := .bool false, isRevision := .undef
    revisesThought := .undef, branchFromThought := .num 2
    branchId := .str "alt-1", needsMoreThoughts := .undef }

/-- Witness for C4: the two concrete branch steps produce branch list
`["alt-1"]` and a branch sequence of length 2. -/
theorem branch_accumulation_witness :
    branchKeys ((processThought (processThought SessionState.init branchInput1).1
        branchInput2).1.branches) = ["alt-1"] ∧
    (lookupBranch ((processThought (processThought SessionState.init branchInput1).1
        branchInput2).1.branches) "alt-1").length = 2 ∧
    ∃ s, (processThought (processThought SessionState.init branchInput1).1
        branchInput2).2 = .success s ∧ s.branches = ["alt-1"] :=
  branch_accumulation branchInput1 branchInput2
    { thought := "consider alternative diagnosis", thoughtNumber := 3, totalThoughts := 3
      nextThoughtNeeded := true, isRevision := .undef, revisesThought := .undef
      branchFromThought := .num 2, branchId := .str "alt-1", needsMoreThoughts := .undef }
    { thought := "test alternative", thoughtNumber := 4, totalThoughts := 4
      nextThoughtNeeded := false, isRevision := .undef, revisesThought := .undef
      branchFromThought := .num 2, branchId := .str "alt-1", needsMoreThoughts := .undef }
    rfl rfl rfl rfl (by decide) rfl

/-- Witness for C10: a valid step with `branchId = "alt-1"` but no
`branchFromThought` succeeds and creates no branch. -/
theorem lone_branch_field_ignored_witness :
    (processThought SessionState.init
        { stepInputA with branchId := .str "alt-1" }).2.isError = false ∧
    (processThought SessionState.init
        { stepInputA with branchId := .str "alt-1" }).1.branches =
      SessionState.init.branches := by
  obtain ⟨h1, _, h3, _⟩ := lone_branch_field_ignored SessionState.init
    { stepInputA with branchId := .str "alt-1" }
    { thought := "take history", thoughtNumber := 1, totalThoughts := 2
      nextThoughtNeeded := true, isRevision := .undef, revisesThought := .undef
      branchFromThought := .undef, branchId := .str "alt-1", needsMoreThoughts := .undef }
    rfl (Or.inl rfl)
  exact ⟨h1, h3⟩

/-- The care-quality code predicate at "high" admits exactly the facilities
rated "high". -/
lemma careQualityPred_high (fac : Facility) :
    careQualityPred .high fac = (fac.careQuality == "high") := by
  cases h : fac.careQuality == "high" <;>
    simp [careQualityPred, CareQuality.str, h]

/-- The care-quality code predicate at "medium" admits exactly the
facilities rated "medium" or "high". -/
lemma careQualityPred_medium (fac : Facility) :
    careQualityPred .medium fac =
      (fac.careQuality == "medium" || fac.careQuality == "high") := by
  cases h1 : fac.careQuality == "medium" <;> cases h2 : fac.careQuality == "high" <;>
    simp_all [careQualityPred, CareQuality.str,
      show (CareQuality.medium == CareQuality.high) = false from by decide,
      show (CareQuality.medium == CareQuality.medium) = true from by decide]

/-- The infrastructure code predicate at "excellent" admits exactly the
facilities rated "excellent". -/
lemma infrastructurePred_excellent (fac : Facility) :
    infrastructurePred .excellent fac = (fac.infrastructure == "excellent") := by
  cases h : fac.infrastructure == "excellent" <;>
    simp [infrastructurePred, InfraQuality.str, h]

/-- The infrastructure code predicate at "good" admits exactly the
facilities rated "good" or "excellent". -/
lemma infrastructurePred_good (fac : Facility) :
    infrastructurePred .good fac =
      (fac.infrastructure == "good" || fac.infrastructure == "excellent") := by
  cases h1 : fac.infrastructure == "good" <;>
    cases h2 : fac.infrastructure == "excellent" <;>
      simp_all [infrastructurePred, InfraQuality.str,
        show (InfraQuality.good == InfraQuality.good) = true from by decide]

/-- The treatment-needs filter step is the filter by the spec predicate. -/
lemma filterByTreatmentNeeds_eq (args : FacilityArgs) (fs : List Facility) :
    filterByTreatmentNeeds args fs = fs.filter (specTreatmentOk args) := by
  unfold filterByTreatmentNeeds specTreatmentOk
  cases args.treatmentNeeds with
  | none => simp
  | some ts => cases ts with
    | nil => simp
    | cons t rest => simp

/-- The care-quality filter step is the filter by the spec predicate. -/
lemma filterByCareQuality_eq (args : FacilityArgs) (fs : List Facility) :
    filterByCareQuality args fs = fs.filter (specCareOk args) := by
  unfold filterByCareQuality specCareOk
  cases args.careQuality with
  | none => simp
  | some q => cases q with
    | high =>
      show fs.filter (careQualityPred .high) =
        fs.filter (fun fac => fac.careQuality == "high")
      exact List.filter_congr (fun fac _ => careQualityPred_high fac)
    | medium =>
      show fs.filter (careQualityPred .medium) =
        fs.filter (fun fac => fac.careQuality == "medium" || fac.careQuality == "high")
      exact List.filter_congr (fun fac _ => careQualityPred_medium fac)
    | any =>
      show fs = fs.filter (fun _ => true)
      simp

/-- The price-range filter step is the filter by the spec predicate. -/
lemma filterByPriceRange_eq (args : FacilityArgs) (fs : List Facility) :
    filterByPriceRange args fs = fs.filter (specPriceOk args) := by
  unfold filterByPriceRange specPriceOk
  cases args.priceRange with
  | none => simp
  | some p => cases p with
    | low =>
      show fs.filter (fun fac => fac.priceRange == PriceRange.low.str) =
        fs.filter (fun fac =>
          PriceRange.low == PriceRange.any || fac.priceRange == PriceRange.low.str)
      exact List.filter_congr (fun fac _ => by
        rw [show (PriceRange.low == PriceRange.any) = false from by decide, Bool.false_or])
    | moderate =>
      show fs.filter (fun fac => fac.priceRange == PriceRange.moderate.str) =
        fs.filter (fun fac =>
          PriceRange.moderate == PriceRange.any || fac.priceRange == PriceRange.moderate.str)
      exact List.filter_congr (fun fac _ => by
        rw [show (PriceRange.moderate == PriceRange.any) = false from by decide,
          Bool.false_or])
    | high =>
      show fs.filter (fun fac => fac.priceRange == PriceRange.high.str) =
        fs.filter (fun fac =>
          PriceRange.high == PriceRange.any || fac.priceRange == PriceRange.high.str)
      exact List.filter_congr (fun fac _ => by
        rw [show (PriceRange.high == PriceRange.any) = false from by decide, Bool.false_or])
    | any =>
      show fs = fs.filter (fun fac => PriceRange.any == PriceRange.any || fac.priceRange == PriceRange.any.str)
      simp

/-- The facility-type filter step is the filter by the spec predicate. -/
lemma filterByFacilityTypes_eq (args : FacilityArgs) (fs : List Facility) :
    filterByFacilityTypes args fs = fs.filter (specTypeOk args) := by
  unfold filterByFacilityTypes specTypeOk
  cases args.facilities with
  | none => simp
  | some l => cases l with
    | nil => simp
    | cons t rest => simp

/-- The infrastructure filter step is the filter by the spec predicate. -/
lemma filterByInfrastructure_eq (args : FacilityArgs) (fs : List Facility) :
    filterByInfrastructure args fs = fs.filter (specInfraOk args) := by
  unfold filterByInfrastructure specInfraOk
  cases args.infrastructure with
  | none => simp
  | some i => cases i with
    | excellent =>
      show fs.filter (infrastructurePred .excellent) =
        fs.filter (fun fac => fac.infrastructure == "excellent")
      exact List.filter_congr (fun fac _ => infrastructurePred_excellent fac)
    | good =>
      show fs.filter (infrastructurePred .good) =
        fs.filter (fun fac =>
          fac.infrastructure == "good" || fac.infrastructure == "excellent")
      exact List.filter_congr (fun fac _ => infrastructurePred_good fac)
    | any =>
      show fs = fs.filter (fun _ => true)
      simp

/-- Five chained filters collapse to one filter by the conjunction. -/
lemma filter_and_five (l : List Facility) (p1 p2 p3 p4 p5 : Facility → Bool) :
    ((((l.filter p1).filter p2).filter p3).filter p4).filter p5 =
      l.filter (fun a => p1 a && p2 a && p3 a && p4 a && p5 a) := by
  induction l with
  | nil => rfl
  | cons x xs ih =>
    cases h1 : p1 x <;> cases h2 : p2 x <;> cases h3 : p3 x <;>
      cases h4 : p4 x <;> cases h5 : p5 x <;>
        simp [List.filter_cons, h1, h2, h3, h4, h5, ih, -List.filter_filter]

/-- C6: for every valid facility-search input the handler's result is the
fixed 3-element candidate set filtered by the AND-intersection of the
specified optional filters (so the reported count is the number of matching
candidates), and with all optional filters omitted the full 3-element set
is returned. -/
theorem facility_search_filter_semantics :
    (∀ args : FacilityArgs,
      findNearbyMedicalFacilities args = mockFacilities.filter (specFacilityMatches args) ∧
      (findNearbyMedicalFacilities args).length =
        (mockFacilities.filter (specFacilityMatches args)).length) ∧
    (∀ (loc : String) (radius : Int),
      findNearbyMedicalFacilities
        { userLocation := loc, radius := radius, treatmentNeeds := none
          careQuality := none, priceRange := none, facilities := none
          infrastructure := none } = mockFacilities) ∧
    mockFacilities.length = 3 := by
  refine ⟨?_, ?_, rfl⟩
  · intro args
    have e : findNearbyMedicalFacilities args =
        mockFacilities.filter (specFacilityMatches args) := by
      unfold findNearbyMedicalFacilities
      rw [filterByTreatmentNeeds_eq, filterByCareQuality_eq, filterByPriceRange_eq,
          filterByFacilityTypes_eq, filterByInfrastructure_eq, filter_and_five]
      rfl
    exact ⟨e, by rw [e]⟩
  · intro loc radius
    rfl

/-- C7: on the fixed candidate set, the care-quality filter at "medium"
admits exactly the facilities rated "medium" or "high", and the
infrastructure filter at "good" admits exactly those rated "good" or
"excellent". -/
theorem ordinal_filter_semantics (fac : Facility) (_hmem : fac ∈ mockFacilities) :
    careQualityPred .medium fac =
      (fac.careQuality == "medium" || fac.careQuality == "high") ∧
    infrastructurePred .good fac =
      (fac.infrastructure == "good" || fac.infrastructure == "excellent") :=
  ⟨careQualityPred_medium fac, infrastructurePred_good fac⟩

/-- Witness for C7: instantiated at the first reference facility. -/
theorem ordinal_filter_semantics_witness :
    careQualityPred .medium
        { name := "General Hospital", address := "123 Main St, Cityville"
          distance := "2.3 km", type := "hospital"
          treatmentsAvailable := ["emergency", "surgery", "cardiology"]
          careQuality := "high", priceRange := "moderate"
          infrastructure := "excellent" } = true ∧
    infrastructurePred .good
        { name := "General Hospital", address := "123 Main St, Cityville"
          distance := "2.3 km", type := "hospital"
          treatmentsAvailable := ["emergency", "surgery", "cardiology"]
          careQuality := "high", priceRange := "moderate"
          infrastructure := "excellent" } = true := by
  obtain ⟨h1, h2⟩ := ordinal_filter_semantics
    { name := "General Hospital", address := "123 Main St, Cityville"
      distance := "2.3 km", type := "hospital"
      treatmentsAvailable := ["emergency", "surgery", "cardiology"]
      careQuality := "high", priceRange := "moderate"
      infrastructure := "excellent" } (by decide)
  rw [h1, h2]
  decide

end EMP
